import Mathlib

/-!
Shallow embedding of the nodeit community-platform backend: the vote
transition engine (`upvoteDocument`, `downvoteDocument`, `removeUpvote`,
`removeDownvote` from the document handler factory), and the community
controller (`createCommunity`, `ban`).

Entities are persisted records addressed by id; the store is modelled as
functions `Id → Option record`.  A mongoose `save()` writes only the paths
the in-memory copy modified, so saves are modelled as field-wise updates
of the stored record.  A vote operation returns `Except (Err × St) St`:
on an error the carried state is the store at the moment the exception was
raised (JS exceptions abort the handler; saves already performed persist).
-/

namespace NodeIt

/-- Entity identifier (a MongoDB ObjectId, compared via `toString`). -/
abbrev Id := Nat

/-- The content kind, selected in the source by `Model.modelName`
(`'Post'` or `'Comment'`), which picks the pair of vote-set field names
on the user record. -/
inductive Kind where
  | post
  | comment
deriving Repr, DecidableEq

/-- User record: `karma` plus the four kind-partitioned vote sets. -/
structure UserRec where
  karma : Int
  upvotedPosts : List Id
  downvotedPosts : List Id
  upvotedComments : List Id
  downvotedComments : List Id
deriving Repr, DecidableEq

/-- Votable document record (Post or Comment): creator and community
references plus the two counters. -/
structure DocRec where
  creator : Id
  community : Id
  upvotes : Int
  downvotes : Int
deriving Repr, DecidableEq

/-- Community record: creator, moderator and banned-user sets, and the
subscriber counter. -/
structure CommunityRec where
  creator : Id
  moderators : List Id
  bannedUsers : List Id
  subscribers : Int
deriving Repr, DecidableEq

/-- The persistent store. -/
structure St where
  users : Id → Option UserRec
  docs : Id → Option DocRec
  communities : Id → Option CommunityRec

/-- Error taxonomy of the `AppError`s thrown by the modelled handlers,
plus the two JS runtime `TypeError`s the code can raise
(`nullDeref`: property access on a `null` query result; `typeError`:
`new Set(n)` applied to a number). -/
inductive Err where
  | notFound
  | alreadyVoted
  | notVoted
  | invalidName
  | insufficientKarma
  | notModerator
  | unauthorized
  | alreadyBanned
  | typeError
  | nullDeref
deriving Repr, DecidableEq

/-- HTTP status code attached to each error: the `AppError` status codes
from the source; runtime `TypeError`s fall through to the generic 500
handler. -/
def httpCode : Err → Nat
  | .notFound => 404
  | .alreadyVoted => 400
  | .notVoted => 400
  | .invalidName => 400
  | .insufficientKarma => 400
  | .notModerator => 400
  | .unauthorized => 400
  | .alreadyBanned => 400
  | .typeError => 500
  | .nullDeref => 500

/-- JS `Array.prototype.includes` on a list of ids. -/
def jsIncludes (l : List Id) (x : Id) : Bool :=
  match l with
  | [] => false
  | y :: t => if y = x then true else jsIncludes t x

/-- Mongoose array `pull`: removes every occurrence of the id. -/
def jsPull (l : List Id) (x : Id) : List Id :=
  match l with
  | [] => []
  | y :: t => if y = x then jsPull t x else y :: jsPull t x

/-- JS `Array.prototype.push`: appends at the end. -/
def jsPush (l : List Id) (x : Id) : List Id := l ++ [x]

/-- The upvoted set for a kind (`upvotedPosts` / `upvotedComments`). -/
def upSet : Kind → UserRec → List Id
  | .post, u => u.upvotedPosts
  | .comment, u => u.upvotedComments

/-- The downvoted set for a kind (`downvotedPosts` / `downvotedComments`). -/
def downSet : Kind → UserRec → List Id
  | .post, u => u.downvotedPosts
  | .comment, u => u.downvotedComments

/-- Write the kind-selected upvoted set. -/
def setUpSet : Kind → List Id → UserRec → UserRec
  | .post, l, u => { u with upvotedPosts := l }
  | .comment, l, u => { u with upvotedComments := l }

/-- Write the kind-selected downvoted set. -/
def setDownSet : Kind → List Id → UserRec → UserRec
  | .post, l, u => { u with downvotedPosts := l }
  | .comment, l, u => { u with downvotedComments := l }

/-- `userDoc[upvotedDocs].push(document.id)`. -/
def pushUp (k : Kind) (d : Id) (u : UserRec) : UserRec :=
  setUpSet k (jsPush (upSet k u) d) u

/-- `userDoc[downvotedDocs].push(document.id)`. -/
def pushDown (k : Kind) (d : Id) (u : UserRec) : UserRec :=
  setDownSet k (jsPush (downSet k u) d) u

/-- `userDoc[upvotedDocs].pull(document.id)`. -/
def pullUp (k : Kind) (d : Id) (u : UserRec) : UserRec :=
  setUpSet k (jsPull (upSet k u) d) u

/-- `userDoc[downvotedDocs].pull(document.id)`. -/
def pullDown (k : Kind) (d : Id) (u : UserRec) : UserRec :=
  setDownSet k (jsPull (downSet k u) d) u

/-- Overwrite a user's karma field. -/
def setKarma (x : Int) (u : UserRec) : UserRec := { u with karma := x }

/-- A `save()` of a user copy: writes the modified fields of the stored
record. -/
def updateUser (uid : Id) (f : UserRec → UserRec) (st : St) : St :=
  { st with users := fun i => if i = uid then (st.users i).map f else st.users i }

/-- A `save()` of a document copy. -/
def saveDoc (did : Id) (doc : DocRec) (st : St) : St :=
  { st with docs := fun j => if j = did then some doc else st.docs j }

/-- A `save()` of a community copy. -/
def saveCommunity (cid : Id) (c : CommunityRec) (st : St) : St :=
  { st with communities := fun j => if j = cid then some c else st.communities j }

/-- `exports.upvoteDocument` (handler factory).  Checks: document found,
then `AlreadyVoted` if the id is in the kind-selected upvoted set; on the
switch path (id in downvoted set) pulls it, decrements `downvotes` and
undoes one karma point before the new vote's effects; then pushes to the
upvoted set, increments `upvotes` and adds one karma point, saving user,
document, creator in that order.  A `null` acting user crashes at the
vote-set access before any mutation; a `null` creator crashes at
`creator.karma++`: before any save on the switch path, after the user and
document saves on the plain path. -/
def upvoteDocument (k : Kind) (st : St) (actorId docId : Id) :
    Except (Err × St) St :=
  match st.docs docId with
  | none => .error (.notFound, st)
  | some doc =>
    match st.users actorId with
    | none => .error (.nullDeref, st)
    | some userDoc =>
      if jsIncludes (upSet k userDoc) docId then .error (.alreadyVoted, st)
      else if jsIncludes (downSet k userDoc) docId then
        match st.users doc.creator with
        | none => .error (.nullDeref, st)
        | some creator =>
          let st1 := updateUser actorId (fun u => pushUp k docId (pullDown k docId u)) st
          let st2 := saveDoc docId
            { doc with downvotes := doc.downvotes - 1, upvotes := doc.upvotes + 1 } st1
          .ok (updateUser doc.creator (setKarma (creator.karma + 2)) st2)
      else
        let st1 := updateUser actorId (pushUp k docId) st
        let st2 := saveDoc docId { doc with upvotes := doc.upvotes + 1 } st1
        match st.users doc.creator with
        | none => .error (.nullDeref, st2)
        | some creator =>
          .ok (updateUser doc.creator (setKarma (creator.karma + 1)) st2)

/-- `exports.downvoteDocument`: mirror image of `upvoteDocument`. -/
def downvoteDocument (k : Kind) (st : St) (actorId docId : Id) :
    Except (Err × St) St :=
  match st.docs docId with
  | none => .error (.notFound, st)
  | some doc =>
    match st.users actorId with
    | none => .error (.nullDeref, st)
    | some userDoc =>
      if jsIncludes (downSet k userDoc) docId then .error (.alreadyVoted, st)
      else if jsIncludes (upSet k userDoc) docId then
        match st.users doc.creator with
        | none => .error (.nullDeref, st)
        | some creator =>
          let st1 := updateUser actorId (fun u => pushDown k docId (pullUp k docId u)) st
          let st2 := saveDoc docId
            { doc with upvotes := doc.upvotes - 1, downvotes := doc.downvotes + 1 } st1
          .ok (updateUser doc.creator (setKarma (creator.karma - 2)) st2)
      else
        let st1 := updateUser actorId (pushDown k docId) st
        let st2 := saveDoc docId { doc with downvotes := doc.downvotes + 1 } st1
        match st.users doc.creator with
        | none => .error (.nullDeref, st2)
        | some creator =>
          .ok (updateUser doc.creator (setKarma (creator.karma - 1)) st2)

/-- `exports.removeUpvote`: `NotVoted` unless the id is in the
kind-selected upvoted set; otherwise pulls it, decrements `upvotes`,
decrements the creator's karma, and saves user, document, creator. -/
def removeUpvote (k : Kind) (st : St) (actorId docId : Id) :
    Except (Err × St) St :=
  match st.docs docId with
  | none => .error (.notFound, st)
  | some doc =>
    match st.users actorId with
    | none => .error (.nullDeref, st)
    | some userDoc =>
      if !(jsIncludes (upSet k userDoc) docId) then .error (.notVoted, st)
      else
        match st.users doc.creator with
        | none => .error (.nullDeref, st)
        | some creator =>
          let st1 := updateUser actorId (pullUp k docId) st
          let st2 := saveDoc docId { doc with upvotes := doc.upvotes - 1 } st1
          .ok (updateUser doc.creator (setKarma (creator.karma - 1)) st2)

/-- `exports.removeDownvote`: mirror image of `removeUpvote`. -/
def removeDownvote (k : Kind) (st : St) (actorId docId : Id) :
    Except (Err × St) St :=
  match st.docs docId with
  | none => .error (.notFound, st)
  | some doc =>
    match st.users actorId with
    | none => .error (.nullDeref, st)
    | some userDoc =>
      if !(jsIncludes (downSet k userDoc) docId) then .error (.notVoted, st)
      else
        match st.users doc.creator with
        | none => .error (.nullDeref, st)
        | some creator =>
          let st1 := updateUser actorId (pullDown k docId) st
          let st2 := saveDoc docId { doc with downvotes := doc.downvotes - 1 } st1
          .ok (updateUser doc.creator (setKarma (creator.karma + 1)) st2)

/-- The four vote intents of the transition engine. -/
inductive VoteIntent where
  | upvote
  | downvote
  | removeUpvote
  | removeDownvote
deriving Repr, DecidableEq

/-- Dispatch a vote intent to its handler. -/
def applyVote (intent : VoteIntent) (k : Kind) (st : St) (actorId docId : Id) :
    Except (Err × St) St :=
  match intent with
  | .upvote => upvoteDocument k st actorId docId
  | .downvote => downvoteDocument k st actorId docId
  | .removeUpvote => removeUpvote k st actorId docId
  | .removeDownvote => removeDownvote k st actorId docId

/-- The store after an operation, whether it succeeded or aborted
mid-way. -/
def afterState : Except (Err × St) St → St
  | .ok s => s
  | .error (_, s) => s

/-- A character matched by the JS regex class `\w`. -/
def isWordChar (c : Char) : Bool :=
  ('a' ≤ c && c ≤ 'z') || ('A' ≤ c && c ≤ 'Z') || ('0' ≤ c && c ≤ '9') || c = '_'

/-- `name.match(/^\w+$/) !== null`. -/
def nameMatchesPattern (name : String) : Bool :=
  name.length > 0 && name.toList.all isWordChar

/-- The karma-gate test `subCreatorDoc?.karma < 49` (optional chaining:
`undefined < 49` is `false`). -/
def karmaBelowGate : Option Int → Bool
  | some kar => kar < 49
  | none => false

/-- `exports.createCommunity`: rejects a name not matching `^\w+$`, then
applies the karma gate, then computes the moderators list as
`moderators ? [...new Set(moderators.push(user?.id))] : [user?.id]`.
When a moderators array is supplied, `moderators.push(user.id)` returns
the new length, a number, and `new Set(number)` throws a `TypeError`
before any community is created. -/
def createCommunity (st : St) (actorId : Id) (name : String)
    (moderators : Option (List Id)) (bannedUsers : List Id) :
    Except Err CommunityRec :=
  if !(nameMatchesPattern name) then .error .invalidName
  else if karmaBelowGate ((st.users actorId).map (fun u => u.karma)) then
    .error .insufficientKarma
  else
    match moderators with
    | some _ => .error .typeError
    | none =>
      .ok { creator := actorId, moderators := [actorId],
            bannedUsers := bannedUsers, subscribers := 0 }

/-- `exports.ban`: target user looked up first (404 if absent), then the
community (404), then the acting user must be a moderator, the target must
not be the creator, and the target must not already be banned; on success
the target is pushed onto `bannedUsers` and the community saved. -/
def ban (st : St) (communityId actorId targetId : Id) :
    Except Err (St × CommunityRec) :=
  match st.users targetId, st.communities communityId with
  | none, _ => .error .notFound
  | some _, none => .error .notFound
  | some _, some community =>
    if !(jsIncludes community.moderators actorId) then .error .notModerator
    else if community.creator = targetId then .error .unauthorized
    else if jsIncludes community.bannedUsers targetId then .error .alreadyBanned
    else
      let community' :=
        { community with bannedUsers := jsPush community.bannedUsers targetId }
      .ok (saveCommunity communityId community' st, community')

/-- A user record with no votes cast. -/
def blankUser (kar : Int) : UserRec :=
  { karma := kar, upvotedPosts := [], downvotedPosts := [],
    upvotedComments := [], downvotedComments := [] }

/-- Store holding a single user (id 1) with the given karma. -/
def stWithKarma (kar : Int) : St :=
  { users := fun i => if i = 1 then some (blankUser kar) else none,
    docs := fun _ => none,
    communities := fun _ => none }

/-- Uniqueness invariant of the data model: a document id is present in
at most one of the two opposing vote sets of the same content kind, never
both. -/
def noDual (k : Kind) (d : Id) (u : UserRec) : Prop :=
  ¬(jsIncludes (upSet k u) d = true ∧ jsIncludes (downSet k u) d = true)

/-- Frame condition on the opposite-polarity counter: it is unchanged by
a successful vote except in the two switch transitions (where the initial
membership in the opposing set is what makes the transition a switch). -/
def oppositeCounterOk (intent : VoteIntent) (k : Kind) (u : UserRec)
    (d : Id) (doc doc' : DocRec) : Prop :=
  match intent with
  | .upvote => jsIncludes (downSet k u) d = false → doc'.downvotes = doc.downvotes
  | .downvote => jsIncludes (upSet k u) d = false → doc'.upvotes = doc.upvotes
  | .removeUpvote => doc'.downvotes = doc.downvotes
  | .removeDownvote => doc'.upvotes = doc.upvotes

/-- Sample document: id 7, created by user 2 in community 3. -/
def sampleDoc : DocRec := { creator := 2, community := 3, upvotes := 5, downvotes := 4 }

/-- Store with acting user 1 (record `u`), creator user 2, and document 7. -/
def stVote (u : UserRec) : St :=
  { users := fun i =>
      if i = 1 then some u else if i = 2 then some (blankUser 10) else none,
    docs := fun j => if j = 7 then some sampleDoc else none,
    communities := fun _ => none }

/-- Acting user who has downvoted post 7. -/
def userDown : UserRec := { blankUser 0 with downvotedPosts := [7] }

/-- Acting user who has upvoted post 7. -/
def userUp : UserRec := { blankUser 0 with upvotedPosts := [7] }

/-- The store after user 1 upvotes post 7 starting from no votes. -/
def stUpOnce : St := afterState (upvoteDocument .post (stVote (blankUser 0)) 1 7)

/-- Sample community: id 3, created by user 2, moderators 2 and 4, user 5
banned. -/
def sampleCommunity : CommunityRec :=
  { creator := 2, moderators := [2, 4], bannedUsers := [5], subscribers := 0 }

/-- Store for the ban scenarios: users 1..9 exist, community 3 exists. -/
def stBan : St :=
  { users := fun i => if i ≤ 9 then some (blankUser 0) else none,
    docs := fun _ => none,
    communities := fun j => if j = 3 then some sampleCommunity else none }

/-- Claim C1: the spec says community creation fails with
`InsufficientKarma` whenever `userKarma < 50`, in particular at karma 49,
while karma 50 succeeds.  The code's gate is `subCreatorDoc?.karma < 49`,
so a user with karma 49 passes the gate and creation succeeds — contrary
to the claim and to the handler's own error message, which demands at
least 50 karma.  This theorem evaluates the code at karma 49 (succeeds),
karma 48 (fails `InsufficientKarma`) and karma 50 (succeeds). -/
theorem createCommunity_karma_gate_bug :
    (createCommunity (stWithKarma 49) 1 "general" none []).isOk = true ∧
    createCommunity (stWithKarma 48) 1 "general" none [] =
      Except.error Err.insufficientKarma ∧
    httpCode Err.insufficientKarma = 400 ∧
    (createCommunity (stWithKarma 50) 1 "general" none []).isOk = true :=
  ⟨rfl, rfl, rfl, rfl⟩

/-- Claim C6: the spec says every successful creation (also with a
supplied non-empty moderators list) puts the creator into `moderators`.
With no moderators list the code indeed creates the community with
`moderators = [creator]`; but whenever a moderators list is supplied the
code evaluates `new Set(moderators.push(user.id))`, and since `push`
returns the new length — a number, which is not iterable — the request
dies with a `TypeError` and no community is created, contrary to the
claim and to the code's own comment ("Remove duplicates and add the
creator to the list"), which `updateCommunity` implements correctly. -/
theorem createCommunity_moderators_bug :
    createCommunity (stWithKarma 60) 1 "general" none [] =
      Except.ok { creator := 1, moderators := [1], bannedUsers := [],
                  subscribers := 0 } ∧
    createCommunity (stWithKarma 60) 1 "general" (some [2]) [] =
      Except.error Err.typeError ∧
    httpCode Err.typeError = 500 :=
  ⟨rfl, rfl, rfl⟩

@[simp] theorem jsIncludes_nil (x : Id) : jsIncludes [] x = false := rfl

@[simp] theorem jsIncludes_cons (y : Id) (t : List Id) (x : Id) :
    jsIncludes (y :: t) x = if y = x then true else jsIncludes t x := rfl

theorem jsIncludes_append (l₁ l₂ : List Id) (x : Id) :
    jsIncludes (l₁ ++ l₂) x = (jsIncludes l₁ x || jsIncludes l₂ x) := by
  induction l₁ with
  | nil => simp
  | cons y t ih => by_cases h : y = x <;> simp [h, ih]

@[simp] theorem jsIncludes_push_self (l : List Id) (x : Id) :
    jsIncludes (jsPush l x) x = true := by
  simp [jsPush, jsIncludes_append]

theorem jsIncludes_push_ne (l : List Id) (x y : Id) (h : y ≠ x) :
    jsIncludes (jsPush l x) y = jsIncludes l y := by
  simp [jsPush, jsIncludes_append, Ne.symm h]

@[simp] theorem jsIncludes_pull_self (l : List Id) (x : Id) :
    jsIncludes (jsPull l x) x = false := by
  induction l with
  | nil => rfl
  | cons y t ih => by_cases h : y = x <;> simp [jsPull, h, ih]

theorem jsIncludes_pull_ne (l : List Id) (x y : Id) (h : y ≠ x) :
    jsIncludes (jsPull l x) y = jsIncludes l y := by
  induction l with
  | nil => rfl
  | cons z t ih =>
    by_cases hz : z = x
    · subst hz; simp [jsPull, Ne.symm h, ih]
    · by_cases hzy : z = y
      · subst hzy; simp [jsPull, hz, ih]
      · simp [jsPull, hz, hzy, ih]

theorem jsPull_of_not_includes (l : List Id) (x : Id)
    (h : jsIncludes l x = false) : jsPull l x = l := by
  induction l with
  | nil => rfl
  | cons y t ih =>
    by_cases hy : y = x
    · simp [hy] at h
    · simp [hy] at h
      simp [jsPull, hy, ih h]

theorem jsPull_push_self (l : List Id) (x : Id) :
    jsPull (jsPush l x) x = jsPull l x := by
  induction l with
  | nil => simp [jsPush, jsPull]
  | cons y t ih =>
    simp only [jsPush, List.cons_append] at *
    by_cases h : y = x <;> simp [jsPull, h, ih]

theorem jsPull_push_of_not_includes (l : List Id) (x : Id)
    (h : jsIncludes l x = false) : jsPull (jsPush l x) x = l := by
  rw [jsPull_push_self, jsPull_of_not_includes l x h]

@[simp] theorem karma_setKarma (x : Int) (u : UserRec) :
    (setKarma x u).karma = x := rfl

@[simp] theorem upSet_setKarma (k : Kind) (x : Int) (u : UserRec) :
    upSet k (setKarma x u) = upSet k u := by cases k <;> rfl

@[simp] theorem downSet_setKarma (k : Kind) (x : Int) (u : UserRec) :
    downSet k (setKarma x u) = downSet k u := by cases k <;> rfl

@[simp] theorem karma_pushUp (k : Kind) (d : Id) (u : UserRec) :
    (pushUp k d u).karma = u.karma := by cases k <;> rfl

@[simp] theorem karma_pushDown (k : Kind) (d : Id) (u : UserRec) :
    (pushDown k d u).karma = u.karma := by cases k <;> rfl

@[simp] theorem karma_pullUp (k : Kind) (d : Id) (u : UserRec) :
    (pullUp k d u).karma = u.karma := by cases k <;> rfl

@[simp] theorem karma_pullDown (k : Kind) (d : Id) (u : UserRec) :
    (pullDown k d u).karma = u.karma := by cases k <;> rfl

theorem upSet_pushUp (k k' : Kind) (d : Id) (u : UserRec) :
    upSet k' (pushUp k d u) =
      if k' = k then jsPush (upSet k u) d else upSet k' u := by
  cases k <;> cases k' <;> simp [pushUp, setUpSet, upSet]

theorem downSet_pushUp (k k' : Kind) (d : Id) (u : UserRec) :
    downSet k' (pushUp k d u) = downSet k' u := by
  cases k <;> cases k' <;> simp [pushUp, setUpSet, downSet]

theorem upSet_pushDown (k k' : Kind) (d : Id) (u : UserRec) :
    upSet k' (pushDown k d u) = upSet k' u := by
  cases k <;> cases k' <;> simp [pushDown, setDownSet, upSet]

theorem downSet_pushDown (k k' : Kind) (d : Id) (u : UserRec) :
    downSet k' (pushDown k d u) =
      if k' = k then jsPush (downSet k u) d else downSet k' u := by
  cases k <;> cases k' <;> simp [pushDown, setDownSet, downSet]

theorem upSet_pullUp (k k' : Kind) (d : Id) (u : UserRec) :
    upSet k' (pullUp k d u) =
      if k' = k then jsPull (upSet k u) d else upSet k' u := by
  cases k <;> cases k' <;> simp [pullUp, setUpSet, upSet]

theorem downSet_pullUp (k k' : Kind) (d : Id) (u : UserRec) :
    downSet k' (pullUp k d u) = downSet k' u := by
  cases k <;> cases k' <;> simp [pullUp, setUpSet, downSet]

theorem upSet_pullDown (k k' : Kind) (d : Id) (u : UserRec) :
    upSet k' (pullDown k d u) = upSet k' u := by
  cases k <;> cases k' <;> simp [pullDown, setDownSet, upSet]

theorem downSet_pullDown (k k' : Kind) (d : Id) (u : UserRec) :
    downSet k' (pullDown k d u) =
      if k' = k then jsPull (downSet k u) d else downSet k' u := by
  cases k <;> cases k' <;> simp [pullDown, setDownSet, downSet]

@[simp] theorem updateUser_users (uid : Id) (f : UserRec → UserRec) (st : St)
    (i : Id) :
    (updateUser uid f st).users i =
      if i = uid then (st.users i).map f else st.users i := rfl

@[simp] theorem updateUser_docs (uid : Id) (f : UserRec → UserRec) (st : St) :
    (updateUser uid f st).docs = st.docs := rfl

@[simp] theorem updateUser_communities (uid : Id) (f : UserRec → UserRec)
    (st : St) : (updateUser uid f st).communities = st.communities := rfl

@[simp] theorem saveDoc_docs (did : Id) (doc : DocRec) (st : St) (j : Id) :
    (saveDoc did doc st).docs j = if j = did then some doc else st.docs j := rfl

@[simp] theorem saveDoc_users (did : Id) (doc : DocRec) (st : St) :
    (saveDoc did doc st).users = st.users := rfl

@[simp] theorem saveDoc_communities (did : Id) (doc : DocRec) (st : St) :
    (saveDoc did doc st).communities = st.communities := rfl

@[simp] theorem afterState_ok (s : St) : afterState (.ok s) = s := rfl

@[simp] theorem afterState_error (e : Err) (s : St) :
    afterState (.error (e, s)) = s := rfl

theorem upvoteDocument_switch_eq (k : Kind) (st : St) (a d : Id)
    (doc : DocRec) (u cr : UserRec)
    (hd : st.docs d = some doc) (hu : st.users a = some u)
    (hc : st.users doc.creator = some cr)
    (hup : jsIncludes (upSet k u) d = false)
    (hdown : jsIncludes (downSet k u) d = true) :
    upvoteDocument k st a d =
      .ok (updateUser doc.creator (setKarma (cr.karma + 2))
        (saveDoc d { doc with downvotes := doc.downvotes - 1,
                              upvotes := doc.upvotes + 1 }
          (updateUser a (fun u0 => pushUp k d (pullDown k d u0)) st))) := by
  simp [upvoteDocument, hd, hu, hc, hup, hdown]

theorem upvoteDocument_plain_eq (k : Kind) (st : St) (a d : Id)
    (doc : DocRec) (u cr : UserRec)
    (hd : st.docs d = some doc) (hu : st.users a = some u)
    (hc : st.users doc.creator = some cr)
    (hup : jsIncludes (upSet k u) d = false)
    (hdown : jsIncludes (downSet k u) d = false) :
    upvoteDocument k st a d =
      .ok (updateUser doc.creator (setKarma (cr.karma + 1))
        (saveDoc d { doc with upvotes := doc.upvotes + 1 }
          (updateUser a (pushUp k d) st))) := by
  simp [upvoteDocument, hd, hu, hc, hup, hdown]

theorem downvoteDocument_switch_eq (k : Kind) (st : St) (a d : Id)
    (doc : DocRec) (u cr : UserRec)
    (hd : st.docs d = some doc) (hu : st.users a = some u)
    (hc : st.users doc.creator = some cr)
    (hdown : jsIncludes (downSet k u) d = false)
    (hup : jsIncludes (upSet k u) d = true) :
    downvoteDocument k st a d =
      .ok (updateUser doc.creator (setKarma (cr.karma - 2))
        (saveDoc d { doc with upvotes := doc.upvotes - 1,
                              downvotes := doc.downvotes + 1 }
          (updateUser a (fun u0 => pushDown k d (pullUp k d u0)) st))) := by
  simp [downvoteDocument, hd, hu, hc, hup, hdown]

theorem downvoteDocument_plain_eq (k : Kind) (st : St) (a d : Id)
    (doc : DocRec) (u cr : UserRec)
    (hd : st.docs d = some doc) (hu : st.users a = some u)
    (hc : st.users doc.creator = some cr)
    (hdown : jsIncludes (downSet k u) d = false)
    (hup : jsIncludes (upSet k u) d = false) :
    downvoteDocument k st a d =
      .ok (updateUser doc.creator (setKarma (cr.karma - 1))
        (saveDoc d { doc with downvotes := doc.downvotes + 1 }
          (updateUser a (pushDown k d) st))) := by
  simp [downvoteDocument, hd, hu, hc, hup, hdown]

theorem removeUpvote_some_eq (k : Kind) (st : St) (a d : Id)
    (doc : DocRec) (u cr : UserRec)
    (hd : st.docs d = some doc) (hu : st.users a = some u)
    (hc : st.users doc.creator = some cr)
    (hup : jsIncludes (upSet k u) d = true) :
    removeUpvote k st a d =
      .ok (updateUser doc.creator (setKarma (cr.karma - 1))
        (saveDoc d { doc with upvotes := doc.upvotes - 1 }
          (updateUser a (pullUp k d) st))) := by
  simp [removeUpvote, hd, hu, hc, hup]

theorem removeDownvote_some_eq (k : Kind) (st : St) (a d : Id)
    (doc : DocRec) (u cr : UserRec)
    (hd : st.docs d = some doc) (hu : st.users a = some u)
    (hc : st.users doc.creator = some cr)
    (hdown : jsIncludes (downSet k u) d = true) :
    removeDownvote k st a d =
      .ok (updateUser doc.creator (setKarma (cr.karma + 1))
        (saveDoc d { doc with downvotes := doc.downvotes - 1 }
          (updateUser a (pullDown k d) st))) := by
  simp [removeDownvote, hd, hu, hc, hdown]

theorem noDual_setKarma (k' : Kind) (dd : Id) (x : Int) (u : UserRec)
    (h : noDual k' dd u) : noDual k' dd (setKarma x u) := by
  unfold noDual at *
  simpa using h

theorem noDual_pushUp_pullDown (k k' : Kind) (d dd : Id) (u : UserRec)
    (h : noDual k' dd u) : noDual k' dd (pushUp k d (pullDown k d u)) := by
  unfold noDual at *
  by_cases hk : k' = k
  · subst hk
    rw [upSet_pushUp, if_pos rfl, upSet_pullDown, downSet_pushUp,
        downSet_pullDown, if_pos rfl]
    by_cases hdd : dd = d
    · subst hdd; simp
    · rw [jsIncludes_push_ne _ _ _ hdd, jsIncludes_pull_ne _ _ _ hdd]; exact h
  · rw [upSet_pushUp, if_neg hk, upSet_pullDown, downSet_pushUp,
        downSet_pullDown, if_neg hk]
    exact h

theorem noDual_pushUp (k k' : Kind) (d dd : Id) (u : UserRec)
    (hdown : jsIncludes (downSet k u) d = false)
    (h : noDual k' dd u) : noDual k' dd (pushUp k d u) := by
  unfold noDual at *
  by_cases hk : k' = k
  · subst hk
    rw [upSet_pushUp, if_pos rfl, downSet_pushUp]
    by_cases hdd : dd = d
    · subst hdd; rw [hdown]; simp
    · rw [jsIncludes_push_ne _ _ _ hdd]; exact h
  · rw [upSet_pushUp, if_neg hk, downSet_pushUp]
    exact h

theorem noDual_pushDown_pullUp (k k' : Kind) (d dd : Id) (u : UserRec)
    (h : noDual k' dd u) : noDual k' dd (pushDown k d (pullUp k d u)) := by
  unfold noDual at *
  by_cases hk : k' = k
  · subst hk
    rw [downSet_pushDown, if_pos rfl, downSet_pullUp, upSet_pushDown,
        upSet_pullUp, if_pos rfl]
    by_cases hdd : dd = d
    · subst hdd; simp
    · rw [jsIncludes_push_ne _ _ _ hdd, jsIncludes_pull_ne _ _ _ hdd]; exact h
  · rw [downSet_pushDown, if_neg hk, downSet_pullUp, upSet_pushDown,
        upSet_pullUp, if_neg hk]
    exact h

theorem noDual_pushDown (k k' : Kind) (d dd : Id) (u : UserRec)
    (hup : jsIncludes (upSet k u) d = false)
    (h : noDual k' dd u) : noDual k' dd (pushDown k d u) := by
  unfold noDual at *
  by_cases hk : k' = k
  · subst hk
    rw [downSet_pushDown, if_pos rfl, upSet_pushDown]
    by_cases hdd : dd = d
    · subst hdd; rw [hup]; simp
    · rw [jsIncludes_push_ne _ _ _ hdd]; exact h
  · rw [downSet_pushDown, if_neg hk, upSet_pushDown]
    exact h

theorem noDual_pullUp (k k' : Kind) (d dd : Id) (u : UserRec)
    (h : noDual k' dd u) : noDual k' dd (pullUp k d u) := by
  unfold noDual at *
  by_cases hk : k' = k
  · subst hk
    rw [upSet_pullUp, if_pos rfl, downSet_pullUp]
    by_cases hdd : dd = d
    · subst hdd; simp
    · rw [jsIncludes_pull_ne _ _ _ hdd]; exact h
  · rw [upSet_pullUp, if_neg hk, downSet_pullUp]
    exact h

theorem noDual_pullDown (k k' : Kind) (d dd : Id) (u : UserRec)
    (h : noDual k' dd u) : noDual k' dd (pullDown k d u) := by
  unfold noDual at *
  by_cases hk : k' = k
  · subst hk
    rw [downSet_pullDown, if_pos rfl, upSet_pullDown]
    by_cases hdd : dd = d
    · subst hdd; simp
    · rw [jsIncludes_pull_ne _ _ _ hdd]; exact h
  · rw [downSet_pullDown, if_neg hk, upSet_pullDown]
    exact h

/-- Claim C2: from state DOWNVOTED, UPVOTE moves the id from the
downvoted set to the upvoted set (no dual membership afterwards),
decrements the document's downvotes, increments its upvotes, and changes
the creator's karma by exactly +2; symmetrically, from state UPVOTED,
DOWNVOTE changes the creator's karma by exactly -2 and moves the id from
the upvoted set to the downvoted set. -/
theorem vote_switch_law (k : Kind) (st : St) (a d : Id) (doc : DocRec)
    (u cr : UserRec)
    (hd : st.docs d = some doc) (hu : st.users a = some u)
    (hc : st.users doc.creator = some cr) :
    (jsIncludes (downSet k u) d = true → jsIncludes (upSet k u) d = false →
      ∃ st' u' doc' cr',
        upvoteDocument k st a d = .ok st' ∧
        st'.users a = some u' ∧ st'.docs d = some doc' ∧
        st'.users doc.creator = some cr' ∧
        jsIncludes (downSet k u') d = false ∧
        jsIncludes (upSet k u') d = true ∧
        doc'.downvotes = doc.downvotes - 1 ∧
        doc'.upvotes = doc.upvotes + 1 ∧
        cr'.karma = cr.karma + 2) ∧
    (jsIncludes (upSet k u) d = true → jsIncludes (downSet k u) d = false →
      ∃ st' u' doc' cr',
        downvoteDocument k st a d = .ok st' ∧
        st'.users a = some u' ∧ st'.docs d = some doc' ∧
        st'.users doc.creator = some cr' ∧
        jsIncludes (upSet k u') d = false ∧
        jsIncludes (downSet k u') d = true ∧
        doc'.upvotes = doc.upvotes - 1 ∧
        doc'.downvotes = doc.downvotes + 1 ∧
        cr'.karma = cr.karma - 2) := by
  constructor
  · intro hdown hup
    rw [upvoteDocument_switch_eq k st a d doc u cr hd hu hc hup hdown]
    by_cases hac : a = doc.creator
    · refine ⟨_, setKarma (cr.karma + 2) (pushUp k d (pullDown k d cr)),
        { doc with downvotes := doc.downvotes - 1, upvotes := doc.upvotes + 1 },
        setKarma (cr.karma + 2) (pushUp k d (pullDown k d cr)),
        rfl, ?_, ?_, ?_, ?_, ?_, rfl, rfl, rfl⟩
      · simp [hac, hc]
      · simp
      · simp [hac, hc]
      · simp [downSet_pushUp, downSet_pullDown]
      · simp [upSet_pushUp]
    · refine ⟨_, pushUp k d (pullDown k d u),
        { doc with downvotes := doc.downvotes - 1, upvotes := doc.upvotes + 1 },
        setKarma (cr.karma + 2) cr,
        rfl, ?_, ?_, ?_, ?_, ?_, rfl, rfl, rfl⟩
      · simp [hac, hu]
      · simp
      · simp [Ne.symm hac, hc]
      · simp [downSet_pushUp, downSet_pullDown]
      · simp [upSet_pushUp]
  · intro hup hdown
    rw [downvoteDocument_switch_eq k st a d doc u cr hd hu hc hdown hup]
    by_cases hac : a = doc.creator
    · refine ⟨_, setKarma (cr.karma - 2) (pushDown k d (pullUp k d cr)),
        { doc with upvotes := doc.upvotes - 1, downvotes := doc.downvotes + 1 },
        setKarma (cr.karma - 2) (pushDown k d (pullUp k d cr)),
        rfl, ?_, ?_, ?_, ?_, ?_, rfl, rfl, rfl⟩
      · simp [hac, hc]
      · simp
      · simp [hac, hc]
      · simp [upSet_pushDown, upSet_pullUp]
      · simp [downSet_pushDown]
    · refine ⟨_, pushDown k d (pullUp k d u),
        { doc with upvotes := doc.upvotes - 1, downvotes := doc.downvotes + 1 },
        setKarma (cr.karma - 2) cr,
        rfl, ?_, ?_, ?_, ?_, ?_, rfl, rfl, rfl⟩
      · simp [hac, hu]
      · simp
      · simp [Ne.symm hac, hc]
      · simp [upSet_pushDown, upSet_pullUp]
      · simp [downSet_pushDown]

/-- Witness for C2: user 1 has downvoted post 7 (creator user 2); the
switch law is instantiated there. -/
theorem vote_switch_law_witness :
    ((stVote userDown).docs 7 = some sampleDoc ∧
     (stVote userDown).users 1 = some userDown ∧
     (stVote userDown).users sampleDoc.creator = some (blankUser 10)) ∧
    ((jsIncludes (downSet Kind.post userDown) 7 = true →
      jsIncludes (upSet Kind.post userDown) 7 = false →
      ∃ st' u' doc' cr',
        upvoteDocument Kind.post (stVote userDown) 1 7 = .ok st' ∧
        st'.users 1 = some u' ∧ st'.docs 7 = some doc' ∧
        st'.users sampleDoc.creator = some cr' ∧
        jsIncludes (downSet Kind.post u') 7 = false ∧
        jsIncludes (upSet Kind.post u') 7 = true ∧
        doc'.downvotes = sampleDoc.downvotes - 1 ∧
        doc'.upvotes = sampleDoc.upvotes + 1 ∧
        cr'.karma = (blankUser 10).karma + 2) ∧
     (jsIncludes (upSet Kind.post userDown) 7 = true →
      jsIncludes (downSet Kind.post userDown) 7 = false →
      ∃ st' u' doc' cr',
        downvoteDocument Kind.post (stVote userDown) 1 7 = .ok st' ∧
        st'.users 1 = some u' ∧ st'.docs 7 = some doc' ∧
        st'.users sampleDoc.creator = some cr' ∧
        jsIncludes (upSet Kind.post u') 7 = false ∧
        jsIncludes (downSet Kind.post u') 7 = true ∧
        doc'.upvotes = sampleDoc.upvotes - 1 ∧
        doc'.downvotes = sampleDoc.downvotes + 1 ∧
        cr'.karma = (blankUser 10).karma - 2)) :=
  ⟨⟨rfl, rfl, rfl⟩,
   vote_switch_law Kind.post (stVote userDown) 1 7 sampleDoc userDown
     (blankUser 10) rfl rfl rfl⟩

theorem upvoteDocument_cases (k : Kind) (st : St) (a d : Id) :
    (st.docs d = none ∧ upvoteDocument k st a d = .error (.notFound, st)) ∨
    (∃ doc, st.docs d = some doc ∧ st.users a = none ∧
      upvoteDocument k st a d = .error (.nullDeref, st)) ∨
    (∃ doc u, st.docs d = some doc ∧ st.users a = some u ∧
      jsIncludes (upSet k u) d = true ∧
      upvoteDocument k st a d = .error (.alreadyVoted, st)) ∨
    (∃ doc u, st.docs d = some doc ∧ st.users a = some u ∧
      jsIncludes (upSet k u) d = false ∧ jsIncludes (downSet k u) d = true ∧
      st.users doc.creator = none ∧
      upvoteDocument k st a d = .error (.nullDeref, st)) ∨
    (∃ doc u cr, st.docs d = some doc ∧ st.users a = some u ∧
      jsIncludes (upSet k u) d = false ∧ jsIncludes (downSet k u) d = true ∧
      st.users doc.creator = some cr ∧
      upvoteDocument k st a d = .ok (updateUser doc.creator
        (setKarma (cr.karma + 2))
        (saveDoc d { doc with downvotes := doc.downvotes - 1,
                              upvotes := doc.upvotes + 1 }
          (updateUser a (fun u0 => pushUp k d (pullDown k d u0)) st)))) ∨
    (∃ doc u, st.docs d = some doc ∧ st.users a = some u ∧
      jsIncludes (upSet k u) d = false ∧ jsIncludes (downSet k u) d = false ∧
      st.users doc.creator = none ∧
      upvoteDocument k st a d = .error (.nullDeref,
        saveDoc d { doc with upvotes := doc.upvotes + 1 }
          (updateUser a (pushUp k d) st))) ∨
    (∃ doc u cr, st.docs d = some doc ∧ st.users a = some u ∧
      jsIncludes (upSet k u) d = false ∧ jsIncludes (downSet k u) d = false ∧
      st.users doc.creator = some cr ∧
      upvoteDocument k st a d = .ok (updateUser doc.creator
        (setKarma (cr.karma + 1))
        (saveDoc d { doc with upvotes := doc.upvotes + 1 }
          (updateUser a (pushUp k d) st)))) := by
  cases hdoc : st.docs d with
  | none => exact Or.inl ⟨rfl, by simp [upvoteDocument, hdoc]⟩
  | some doc =>
    cases hu : st.users a with
    | none =>
      exact Or.inr (Or.inl ⟨doc, rfl, rfl, by simp [upvoteDocument, hdoc, hu]⟩)
    | some u =>
      cases hup : jsIncludes (upSet k u) d with
      | true =>
        exact Or.inr (Or.inr (Or.inl ⟨doc, u, rfl, rfl, hup,
          by simp [upvoteDocument, hdoc, hu, hup]⟩))
      | false =>
        cases hdown : jsIncludes (downSet k u) d with
        | true =>
          cases hcr : st.users doc.creator with
          | none =>
            exact Or.inr (Or.inr (Or.inr (Or.inl ⟨doc, u, rfl, rfl, hup,
              hdown, hcr,
              by simp [upvoteDocument, hdoc, hu, hup, hdown, hcr]⟩)))
          | some cr =>
            exact Or.inr (Or.inr (Or.inr (Or.inr (Or.inl ⟨doc, u, cr, rfl, rfl,
              hup, hdown, hcr,
              by simp [upvoteDocument, hdoc, hu, hup, hdown, hcr]⟩))))
        | false =>
          cases hcr : st.users doc.creator with
          | none =>
            exact Or.inr (Or.inr (Or.inr (Or.inr (Or.inr (Or.inl ⟨doc, u, rfl,
              rfl, hup, hdown, hcr,
              by simp [upvoteDocument, hdoc, hu, hup, hdown, hcr]⟩)))))
          | some cr =>
            exact Or.inr (Or.inr (Or.inr (Or.inr (Or.inr (Or.inr ⟨doc, u, cr,
              rfl, rfl, hup, hdown, hcr,
              by simp [upvoteDocument, hdoc, hu, hup, hdown, hcr]⟩)))))

theorem downvoteDocument_cases (k : Kind) (st : St) (a d : Id) :
    (st.docs d = none ∧ downvoteDocument k st a d = .error (.notFound, st)) ∨
    (∃ doc, st.docs d = some doc ∧ st.users a = none ∧
      downvoteDocument k st a d = .error (.nullDeref, st)) ∨
    (∃ doc u, st.docs d = some doc ∧ st.users a = some u ∧
      jsIncludes (downSet k u) d = true ∧
      downvoteDocument k st a d = .error (.alreadyVoted, st)) ∨
    (∃ doc u, st.docs d = some doc ∧ st.users a = some u ∧
      jsIncludes (downSet k u) d = false ∧ jsIncludes (upSet k u) d = true ∧
      st.users doc.creator = none ∧
      downvoteDocument k st a d = .error (.nullDeref, st)) ∨
    (∃ doc u cr, st.docs d = some doc ∧ st.users a = some u ∧
      jsIncludes (downSet k u) d = false ∧ jsIncludes (upSet k u) d = true ∧
      st.users doc.creator = some cr ∧
      downvoteDocument k st a d = .ok (updateUser doc.creator
        (setKarma (cr.karma - 2))
        (saveDoc d { doc with upvotes := doc.upvotes - 1,
                              downvotes := doc.downvotes + 1 }
          (updateUser a (fun u0 => pushDown k d (pullUp k d u0)) st)))) ∨
    (∃ doc u, st.docs d = some doc ∧ st.users a = some u ∧
      jsIncludes (downSet k u) d = false ∧ jsIncludes (upSet k u) d = false ∧
      st.users doc.creator = none ∧
      downvoteDocument k st a d = .error (.nullDeref,
        saveDoc d { doc with downvotes := doc.downvotes + 1 }
          (updateUser a (pushDown k d) st))) ∨
    (∃ doc u cr, st.docs d = some doc ∧ st.users a = some u ∧
      jsIncludes (downSet k u) d = false ∧ jsIncludes (upSet k u) d = false ∧
      st.users doc.creator = some cr ∧
      downvoteDocument k st a d = .ok (updateUser doc.creator
        (setKarma (cr.karma - 1))
        (saveDoc d { doc with downvotes := doc.downvotes + 1 }
          (updateUser a (pushDown k d) st)))) := by
  cases hdoc : st.docs d with
  | none => exact Or.inl ⟨rfl, by simp [downvoteDocument, hdoc]⟩
  | some doc =>
    cases hu : st.users a with
    | none =>
      exact Or.inr (Or.inl ⟨doc, rfl, rfl, by simp [downvoteDocument, hdoc, hu]⟩)
    | some u =>
      cases hdown : jsIncludes (downSet k u) d with
      | true =>
        exact Or.inr (Or.inr (Or.inl ⟨doc, u, rfl, rfl, hdown,
          by simp [downvoteDocument, hdoc, hu, hdown]⟩))
      | false =>
        cases hup : jsIncludes (upSet k u) d with
        | true =>
          cases hcr : st.users doc.creator with
          | none =>
            exact Or.inr (Or.inr (Or.inr (Or.inl ⟨doc, u, rfl, rfl, hdown,
              hup, hcr,
              by simp [downvoteDocument, hdoc, hu, hup, hdown, hcr]⟩)))
          | some cr =>
            exact Or.inr (Or.inr (Or.inr (Or.inr (Or.inl ⟨doc, u, cr, rfl, rfl,
              hdown, hup, hcr,
              by simp [downvoteDocument, hdoc, hu, hup, hdown, hcr]⟩))))
        | false =>
          cases hcr : st.users doc.creator with
          | none =>
            exact Or.inr (Or.inr (Or.inr (Or.inr (Or.inr (Or.inl ⟨doc, u, rfl,
              rfl, hdown, hup, hcr,
              by simp [downvoteDocument, hdoc, hu, hup, hdown, hcr]⟩)))))
          | some cr =>
            exact Or.inr (Or.inr (Or.inr (Or.inr (Or.inr (Or.inr ⟨doc, u, cr,
              rfl, rfl, hdown, hup, hcr,
              by simp [downvoteDocument, hdoc, hu, hup, hdown, hcr]⟩)))))

theorem removeUpvote_cases (k : Kind) (st : St) (a d : Id) :
    (st.docs d = none ∧ removeUpvote k st a d = .error (.notFound, st)) ∨
    (∃ doc, st.docs d = some doc ∧ st.users a = none ∧
      removeUpvote k st a d = .error (.nullDeref, st)) ∨
    (∃ doc u, st.docs d = some doc ∧ st.users a = some u ∧
      jsIncludes (upSet k u) d = false ∧
      removeUpvote k st a d = .error (.notVoted, st)) ∨
    (∃ doc u, st.docs d = some doc ∧ st.users a = some u ∧
      jsIncludes (upSet k u) d = true ∧ st.users doc.creator = none ∧
      removeUpvote k st a d = .error (.nullDeref, st)) ∨
    (∃ doc u cr, st.docs d = some doc ∧ st.users a = some u ∧
      jsIncludes (upSet k u) d = true ∧ st.users doc.creator = some cr ∧
      removeUpvote k st a d = .ok (updateUser doc.creator
        (setKarma (cr.karma - 1))
        (saveDoc d { doc with upvotes := doc.upvotes - 1 }
          (updateUser a (pullUp k d) st)))) := by
  cases hdoc : st.docs d with
  | none => exact Or.inl ⟨rfl, by simp [removeUpvote, hdoc]⟩
  | some doc =>
    cases hu : st.users a with
    | none =>
      exact Or.inr (Or.inl ⟨doc, rfl, rfl, by simp [removeUpvote, hdoc, hu]⟩)
    | some u =>
      cases hup : jsIncludes (upSet k u) d with
      | false =>
        exact Or.inr (Or.inr (Or.inl ⟨doc, u, rfl, rfl, hup,
          by simp [removeUpvote, hdoc, hu, hup]⟩))
      | true =>
        cases hcr : st.users doc.creator with
        | none =>
          exact Or.inr (Or.inr (Or.inr (Or.inl ⟨doc, u, rfl, rfl, hup, hcr,
            by simp [removeUpvote, hdoc, hu, hup, hcr]⟩)))
        | some cr =>
          exact Or.inr (Or.inr (Or.inr (Or.inr ⟨doc, u, cr, rfl, rfl, hup, hcr,
            by simp [removeUpvote, hdoc, hu, hup, hcr]⟩)))

theorem removeDownvote_cases (k : Kind) (st : St) (a d : Id) :
    (st.docs d = none ∧ removeDownvote k st a d = .error (.notFound, st)) ∨
    (∃ doc, st.docs d = some doc ∧ st.users a = none ∧
      removeDownvote k st a d = .error (.nullDeref, st)) ∨
    (∃ doc u, st.docs d = some doc ∧ st.users a = some u ∧
      jsIncludes (downSet k u) d = false ∧
      removeDownvote k st a d = .error (.notVoted, st)) ∨
    (∃ doc u, st.docs d = some doc ∧ st.users a = some u ∧
      jsIncludes (downSet k u) d = true ∧ st.users doc.creator = none ∧
      removeDownvote k st a d = .error (.nullDeref, st)) ∨
    (∃ doc u cr, st.docs d = some doc ∧ st.users a = some u ∧
      jsIncludes (downSet k u) d = true ∧ st.users doc.creator = some cr ∧
      removeDownvote k st a d = .ok (updateUser doc.creator
        (setKarma (cr.karma + 1))
        (saveDoc d { doc with downvotes := doc.downvotes - 1 }
          (updateUser a (pullDown k d) st)))) := by
  cases hdoc : st.docs d with
  | none => exact Or.inl ⟨rfl, by simp [removeDownvote, hdoc]⟩
  | some doc =>
    cases hu : st.users a with
    | none =>
      exact Or.inr (Or.inl ⟨doc, rfl, rfl, by simp [removeDownvote, hdoc, hu]⟩)
    | some u =>
      cases hdown : jsIncludes (downSet k u) d with
      | false =>
        exact Or.inr (Or.inr (Or.inl ⟨doc, u, rfl, rfl, hdown,
          by simp [removeDownvote, hdoc, hu, hdown]⟩))
      | true =>
        cases hcr : st.users doc.creator with
        | none =>
          exact Or.inr (Or.inr (Or.inr (Or.inl ⟨doc, u, rfl, rfl, hdown, hcr,
            by simp [removeDownvote, hdoc, hu, hdown, hcr]⟩)))
        | some cr =>
          exact Or.inr (Or.inr (Or.inr (Or.inr ⟨doc, u, cr, rfl, rfl, hdown, hcr,
            by simp [removeDownvote, hdoc, hu, hdown, hcr]⟩)))

theorem upvote_ok_up_after (k : Kind) (st₀ st : St) (a d : Id)
    (h : upvoteDocument k st₀ a d = .ok st) :
    ∃ u' doc', st.users a = some u' ∧ jsIncludes (upSet k u') d = true ∧
      st.docs d = some doc' := by
  rcases upvoteDocument_cases k st₀ a d with ⟨_, he⟩ | ⟨_, _, _, he⟩ |
    ⟨_, _, _, _, _, he⟩ | ⟨_, _, _, _, _, _, _, he⟩ |
    ⟨doc0, u0, cr0, hd0, hu0, hup0, hdown0, hcr0, he⟩ |
    ⟨_, _, _, _, _, _, _, he⟩ |
    ⟨doc0, u0, cr0, hd0, hu0, hup0, hdown0, hcr0, he⟩ <;>
    rw [he] at h
  · exact absurd h (by simp)
  · exact absurd h (by simp)
  · exact absurd h (by simp)
  · exact absurd h (by simp)
  · have hst := Except.ok.inj h
    subst hst
    by_cases hac : a = doc0.creator
    · exact ⟨setKarma (cr0.karma + 2) (pushUp k d (pullDown k d u0)),
        { doc0 with downvotes := doc0.downvotes - 1,
                    upvotes := doc0.upvotes + 1 },
        by simp [if_pos hac, hu0], by simp [upSet_pushUp], by simp⟩
    · exact ⟨pushUp k d (pullDown k d u0),
        { doc0 with downvotes := doc0.downvotes - 1,
                    upvotes := doc0.upvotes + 1 },
        by simp [if_neg hac, hu0], by simp [upSet_pushUp], by simp⟩
  · exact absurd h (by simp)
  · have hst := Except.ok.inj h
    subst hst
    by_cases hac : a = doc0.creator
    · exact ⟨setKarma (cr0.karma + 1) (pushUp k d u0),
        { doc0 with upvotes := doc0.upvotes + 1 },
        by simp [if_pos hac, hu0], by simp [upSet_pushUp], by simp⟩
    · exact ⟨pushUp k d u0, { doc0 with upvotes := doc0.upvotes + 1 },
        by simp [if_neg hac, hu0], by simp [upSet_pushUp], by simp⟩

/-- Claim C3: when the acting user's upvoted set already contains the
document id, UPVOTE fails with `AlreadyVoted` (400) and the carried state
is exactly the pre-call state (no mutation); and an upvote that just
succeeded fails the same way when repeated on the resulting state. -/
theorem upvote_already_voted_fails (k : Kind) (st₀ st : St) (a d : Id)
    (doc : DocRec) (u : UserRec)
    (hd : st.docs d = some doc) (hu : st.users a = some u) :
    (jsIncludes (upSet k u) d = true →
      upvoteDocument k st a d = .error (.alreadyVoted, st)) ∧
    (upvoteDocument k st₀ a d = .ok st →
      upvoteDocument k st a d = .error (.alreadyVoted, st)) ∧
    httpCode Err.alreadyVoted = 400 := by
  refine ⟨?_, ?_, rfl⟩
  · intro hup
    simp [upvoteDocument, hd, hu, hup]
  · intro hsucc
    obtain ⟨u', doc', hu', hup', hd'⟩ := upvote_ok_up_after k st₀ st a d hsucc
    rw [hu] at hu'
    have huu : u = u' := Option.some.inj hu'
    subst huu
    simp [upvoteDocument, hd, hu, hup']

/-- Witness for C3: user 1 upvotes post 7 once from a clean store, then
the second upvote on the resulting store fails `AlreadyVoted`. -/
theorem upvote_already_voted_fails_witness :
    (stUpOnce.docs 7 =
        some { creator := 2, community := 3, upvotes := 6, downvotes := 4 } ∧
     stUpOnce.users 1 = some userUp) ∧
    ((jsIncludes (upSet Kind.post userUp) 7 = true →
       upvoteDocument Kind.post stUpOnce 1 7 = .error (.alreadyVoted, stUpOnce)) ∧
     (upvoteDocument Kind.post (stVote (blankUser 0)) 1 7 = .ok stUpOnce →
       upvoteDocument Kind.post stUpOnce 1 7 = .error (.alreadyVoted, stUpOnce)) ∧
     httpCode Err.alreadyVoted = 400) :=
  ⟨⟨rfl, rfl⟩,
   upvote_already_voted_fails Kind.post (stVote (blankUser 0)) stUpOnce 1 7
     { creator := 2, community := 3, upvotes := 6, downvotes := 4 } userUp
     rfl rfl⟩

/-- Claim C4: from state NONE, upvote followed by remove-upvote restores
the document's two counters, the acting user's two vote sets, and the
creator's karma to exactly their pre-upvote values. -/
theorem upvote_remove_roundtrip (k : Kind) (st : St) (a d : Id)
    (doc : DocRec) (u cr : UserRec)
    (hd : st.docs d = some doc) (hu : st.users a = some u)
    (hc : st.users doc.creator = some cr)
    (hup : jsIncludes (upSet k u) d = false)
    (hdown : jsIncludes (downSet k u) d = false) :
    ∃ st₁ st₂ u₂ doc₂ cr₂,
      upvoteDocument k st a d = .ok st₁ ∧
      removeUpvote k st₁ a d = .ok st₂ ∧
      st₂.users a = some u₂ ∧ st₂.docs d = some doc₂ ∧
      st₂.users doc.creator = some cr₂ ∧
      upSet k u₂ = upSet k u ∧ downSet k u₂ = downSet k u ∧
      doc₂.upvotes = doc.upvotes ∧ doc₂.downvotes = doc.downvotes ∧
      cr₂.karma = cr.karma := by
  have h1 := upvoteDocument_plain_eq k st a d doc u cr hd hu hc hup hdown
  by_cases hac : a = doc.creator
  · have hca : doc.creator = a := hac.symm
    have hcu : cr = u := by
      rw [hac] at hu; rw [hc] at hu; exact Option.some.inj hu
    subst hcu
    have hst1u : (updateUser doc.creator (setKarma (cr.karma + 1))
        (saveDoc d { doc with upvotes := doc.upvotes + 1 }
          (updateUser a (pushUp k d) st))).users a =
        some (setKarma (cr.karma + 1) (pushUp k d cr)) := by
      simp [if_pos hac, hu]
    have hst1d : (updateUser doc.creator (setKarma (cr.karma + 1))
        (saveDoc d { doc with upvotes := doc.upvotes + 1 }
          (updateUser a (pushUp k d) st))).docs d =
        some { doc with upvotes := doc.upvotes + 1 } := by simp
    have hst1c : (updateUser doc.creator (setKarma (cr.karma + 1))
        (saveDoc d { doc with upvotes := doc.upvotes + 1 }
          (updateUser a (pushUp k d) st))).users doc.creator =
        some (setKarma (cr.karma + 1) (pushUp k d cr)) := by
      simp [if_pos hca, hc]
    have hmem : jsIncludes
        (upSet k (setKarma (cr.karma + 1) (pushUp k d cr))) d = true := by
      simp [upSet_pushUp]
    have h2 := removeUpvote_some_eq k _ a d
      { doc with upvotes := doc.upvotes + 1 }
      (setKarma (cr.karma + 1) (pushUp k d cr))
      (setKarma (cr.karma + 1) (pushUp k d cr))
      hst1d hst1u hst1c hmem
    refine ⟨_, _,
      setKarma ((setKarma (cr.karma + 1) (pushUp k d cr)).karma - 1)
        (pullUp k d (setKarma (cr.karma + 1) (pushUp k d cr))),
      { creator := doc.creator, community := doc.community,
        upvotes := doc.upvotes + 1 - 1, downvotes := doc.downvotes },
      setKarma ((setKarma (cr.karma + 1) (pushUp k d cr)).karma - 1)
        (pullUp k d (setKarma (cr.karma + 1) (pushUp k d cr))),
      h1, h2, ?_, by simp, ?_, ?_, ?_, by simp, rfl, by simp⟩
    · simp [if_pos hac, hst1u]
      exact ⟨cr, hu, rfl⟩
    · simp [if_pos hca, hst1c]
      exact ⟨cr, hc, rfl⟩
    · simp [upSet_pullUp, upSet_pushUp, jsPull_push_of_not_includes _ _ hup]
    · simp [downSet_pullUp, downSet_pushUp]
  · have hca : ¬(doc.creator = a) := fun h => hac h.symm
    have hst1u : (updateUser doc.creator (setKarma (cr.karma + 1))
        (saveDoc d { doc with upvotes := doc.upvotes + 1 }
          (updateUser a (pushUp k d) st))).users a =
        some (pushUp k d u) := by
      simp [if_neg hac, hu]
    have hst1d : (updateUser doc.creator (setKarma (cr.karma + 1))
        (saveDoc d { doc with upvotes := doc.upvotes + 1 }
          (updateUser a (pushUp k d) st))).docs d =
        some { doc with upvotes := doc.upvotes + 1 } := by simp
    have hst1c : (updateUser doc.creator (setKarma (cr.karma + 1))
        (saveDoc d { doc with upvotes := doc.upvotes + 1 }
          (updateUser a (pushUp k d) st))).users doc.creator =
        some (setKarma (cr.karma + 1) cr) := by
      simp [if_neg hca, hc]
    have hmem : jsIncludes (upSet k (pushUp k d u)) d = true := by
      simp [upSet_pushUp]
    have h2 := removeUpvote_some_eq k _ a d
      { doc with upvotes := doc.upvotes + 1 }
      (pushUp k d u) (setKarma (cr.karma + 1) cr)
      hst1d hst1u hst1c hmem
    refine ⟨_, _,
      pullUp k d (pushUp k d u),
      { creator := doc.creator, community := doc.community,
        upvotes := doc.upvotes + 1 - 1, downvotes := doc.downvotes },
      setKarma ((setKarma (cr.karma + 1) cr).karma - 1)
        (setKarma (cr.karma + 1) cr),
      h1, h2, ?_, by simp, ?_, ?_, ?_, by simp, rfl, by simp⟩
    · simp [if_neg hac, hst1u]
      exact ⟨u, hu, rfl⟩
    · simp [if_neg hca, hst1c]
      exact ⟨cr, hc, rfl⟩
    · simp [upSet_pullUp, upSet_pushUp, jsPull_push_of_not_includes _ _ hup]
    · simp [downSet_pullUp, downSet_pushUp]

/-- Witness for C4: user 1 (no votes) upvotes then removes the upvote on
post 7; counters, vote sets and creator karma return to their initial
values. -/
theorem upvote_remove_roundtrip_witness :
    ((stVote (blankUser 0)).docs 7 = some sampleDoc ∧
     (stVote (blankUser 0)).users 1 = some (blankUser 0) ∧
     (stVote (blankUser 0)).users sampleDoc.creator = some (blankUser 10) ∧
     jsIncludes (upSet Kind.post (blankUser 0)) 7 = false ∧
     jsIncludes (downSet Kind.post (blankUser 0)) 7 = false) ∧
    (∃ st₁ st₂ u₂ doc₂ cr₂,
      upvoteDocument Kind.post (stVote (blankUser 0)) 1 7 = .ok st₁ ∧
      removeUpvote Kind.post st₁ 1 7 = .ok st₂ ∧
      st₂.users 1 = some u₂ ∧ st₂.docs 7 = some doc₂ ∧
      st₂.users sampleDoc.creator = some cr₂ ∧
      upSet Kind.post u₂ = upSet Kind.post (blankUser 0) ∧
      downSet Kind.post u₂ = downSet Kind.post (blankUser 0) ∧
      doc₂.upvotes = sampleDoc.upvotes ∧
      doc₂.downvotes = sampleDoc.downvotes ∧
      cr₂.karma = (blankUser 10).karma) :=
  ⟨⟨rfl, rfl, rfl, rfl, rfl⟩,
   upvote_remove_roundtrip Kind.post (stVote (blankUser 0)) 1 7 sampleDoc
     (blankUser 0) (blankUser 10) rfl rfl rfl rfl rfl⟩

/-- Claim C5: REMOVE_UPVOTE fails with `NotVoted` (400) when the id is
not in the acting user's upvoted set, and REMOVE_DOWNVOTE fails with
`NotVoted` (400) when the id is not in the downvoted set; in both cases
the carried state is exactly the pre-call state (no mutation). -/
theorem remove_vote_not_voted_fails (k : Kind) (st : St) (a d : Id)
    (doc : DocRec) (u : UserRec)
    (hd : st.docs d = some doc) (hu : st.users a = some u) :
    (jsIncludes (upSet k u) d = false →
      removeUpvote k st a d = .error (.notVoted, st)) ∧
    (jsIncludes (downSet k u) d = false →
      removeDownvote k st a d = .error (.notVoted, st)) ∧
    httpCode Err.notVoted = 400 := by
  refine ⟨?_, ?_, rfl⟩
  · intro hup; simp [removeUpvote, hd, hu, hup]
  · intro hdown; simp [removeDownvote, hd, hu, hdown]

/-- Witness for C5: user 1 has cast no vote on post 7, so both remove
operations fail `NotVoted` with the store unchanged. -/
theorem remove_vote_not_voted_fails_witness :
    ((stVote (blankUser 0)).docs 7 = some sampleDoc ∧
     (stVote (blankUser 0)).users 1 = some (blankUser 0)) ∧
    ((jsIncludes (upSet Kind.post (blankUser 0)) 7 = false →
       removeUpvote Kind.post (stVote (blankUser 0)) 1 7 =
         .error (.notVoted, stVote (blankUser 0))) ∧
     (jsIncludes (downSet Kind.post (blankUser 0)) 7 = false →
       removeDownvote Kind.post (stVote (blankUser 0)) 1 7 =
         .error (.notVoted, stVote (blankUser 0))) ∧
     httpCode Err.notVoted = 400) :=
  ⟨⟨rfl, rfl⟩,
   remove_vote_not_voted_fails Kind.post (stVote (blankUser 0)) 1 7 sampleDoc
     (blankUser 0) rfl rfl⟩

/-- Claim C7: ban fails with a 400 error when the actor is not a
moderator, when the target is already banned, and when the target is the
community's creator; otherwise it pushes the target onto `bannedUsers`
and returns the updated community. -/
theorem ban_checks (st : St) (cid actor target : Id) (c : CommunityRec)
    (tu : UserRec)
    (ht : st.users target = some tu) (hc : st.communities cid = some c) :
    (jsIncludes c.moderators actor = false →
      ban st cid actor target = .error .notModerator ∧
      httpCode Err.notModerator = 400) ∧
    (jsIncludes c.bannedUsers target = true →
      ∃ e, ban st cid actor target = .error e ∧ httpCode e = 400) ∧
    (c.creator = target →
      ∃ e, ban st cid actor target = .error e ∧ httpCode e = 400) ∧
    (jsIncludes c.moderators actor = true → c.creator ≠ target →
      jsIncludes c.bannedUsers target = false →
      ban st cid actor target =
        .ok (saveCommunity cid
               { c with bannedUsers := jsPush c.bannedUsers target } st,
             { c with bannedUsers := jsPush c.bannedUsers target })) := by
  refine ⟨?_, ?_, ?_, ?_⟩
  · intro hm
    exact ⟨by simp [ban, ht, hc, hm], rfl⟩
  · intro hb
    by_cases hm : jsIncludes c.moderators actor
    · by_cases hcr : c.creator = target
      · exact ⟨.unauthorized, by simp [ban, ht, hc, hm, hcr], rfl⟩
      · exact ⟨.alreadyBanned, by simp [ban, ht, hc, hm, hcr, hb], rfl⟩
    · exact ⟨.notModerator, by simp [ban, ht, hc,
        Bool.not_eq_true _ ▸ hm], rfl⟩
  · intro hcr
    by_cases hm : jsIncludes c.moderators actor
    · exact ⟨.unauthorized, by simp [ban, ht, hc, hm, hcr], rfl⟩
    · exact ⟨.notModerator, by simp [ban, ht, hc,
        Bool.not_eq_true _ ▸ hm], rfl⟩
  · intro hm hcr hb
    simp [ban, ht, hc, hm, hcr, hb]

/-- Witness for C7: in community 3 (creator 2, moderators 2 and 4,
user 5 banned), moderator 4 bans user 6. -/
theorem ban_checks_witness :
    (stBan.users 6 = some (blankUser 0) ∧
     stBan.communities 3 = some sampleCommunity) ∧
    ((jsIncludes sampleCommunity.moderators 4 = false →
       ban stBan 3 4 6 = .error .notModerator ∧
       httpCode Err.notModerator = 400) ∧
     (jsIncludes sampleCommunity.bannedUsers 6 = true →
       ∃ e, ban stBan 3 4 6 = .error e ∧ httpCode e = 400) ∧
     (sampleCommunity.creator = 6 →
       ∃ e, ban stBan 3 4 6 = .error e ∧ httpCode e = 400) ∧
     (jsIncludes sampleCommunity.moderators 4 = true →
      sampleCommunity.creator ≠ 6 →
      jsIncludes sampleCommunity.bannedUsers 6 = false →
      ban stBan 3 4 6 =
        .ok (saveCommunity 3
               { sampleCommunity with
                 bannedUsers := jsPush sampleCommunity.bannedUsers 6 } stBan,
             { sampleCommunity with
               bannedUsers := jsPush sampleCommunity.bannedUsers 6 }))) :=
  ⟨⟨rfl, rfl⟩, ban_checks stBan 3 4 6 sampleCommunity (blankUser 0) rfl rfl⟩

theorem users_two_updates (cid a2 : Id) (g f : UserRec → UserRec)
    (doc2 : DocRec) (d2 : Id) (st : St) (uid : Id) (u u' : UserRec)
    (hu : st.users uid = some u)
    (h : (updateUser cid g (saveDoc d2 doc2 (updateUser a2 f st))).users uid =
      some u') :
    u' = u ∨ (uid = a2 ∧ u' = f u) ∨ (uid = cid ∧ u' = g u) ∨
      (uid = a2 ∧ uid = cid ∧ u' = g (f u)) := by
  rw [updateUser_users] at h
  by_cases h1 : uid = cid
  · rw [if_pos h1, saveDoc_users, updateUser_users] at h
    by_cases h2 : uid = a2
    · rw [if_pos h2, hu] at h
      simp at h
      exact Or.inr (Or.inr (Or.inr ⟨h2, h1, h.symm⟩))
    · rw [if_neg h2, hu] at h
      simp at h
      exact Or.inr (Or.inr (Or.inl ⟨h1, h.symm⟩))
  · rw [if_neg h1, saveDoc_users, updateUser_users] at h
    by_cases h2 : uid = a2
    · rw [if_pos h2, hu] at h
      simp at h
      exact Or.inr (Or.inl ⟨h2, h.symm⟩)
    · rw [if_neg h2, hu] at h
      exact Or.inl (Option.some.inj h).symm

theorem users_one_update (a2 : Id) (f : UserRec → UserRec) (doc2 : DocRec)
    (d2 : Id) (st : St) (uid : Id) (u u' : UserRec)
    (hu : st.users uid = some u)
    (h : (saveDoc d2 doc2 (updateUser a2 f st)).users uid = some u') :
    u' = u ∨ (uid = a2 ∧ u' = f u) := by
  rw [saveDoc_users, updateUser_users] at h
  by_cases h2 : uid = a2
  · rw [if_pos h2, hu] at h
    simp at h
    exact Or.inr ⟨h2, h.symm⟩
  · rw [if_neg h2, hu] at h
    exact Or.inl (Option.some.inj h).symm

/-- Claim C8: starting from any user record satisfying the uniqueness
invariant for a content kind and a document id, the user's record after
any of the four vote operations — whether the operation succeeded or
aborted with an error — still satisfies it: the id is in at most one of
the two opposing vote sets, never both. -/
theorem vote_preserves_uniqueness (intent : VoteIntent) (k k' : Kind)
    (st : St) (a d uid dd : Id) (u u' : UserRec)
    (hu : st.users uid = some u) (hinv : noDual k' dd u)
    (hres : (afterState (applyVote intent k st a d)).users uid = some u') :
    noDual k' dd u' := by
  cases intent
  case upvote =>
    simp only [applyVote] at hres
    rcases upvoteDocument_cases k st a d with ⟨_, heq⟩ | ⟨_, _, _, heq⟩ |
      ⟨_, _, _, _, _, heq⟩ | ⟨_, _, _, _, _, _, _, heq⟩ |
      ⟨doc0, u0, cr0, hd0, hu0, hup0, hdown0, hcr0, heq⟩ |
      ⟨doc0, u0, hd0, hu0, hup0, hdown0, hcr0, heq⟩ |
      ⟨doc0, u0, cr0, hd0, hu0, hup0, hdown0, hcr0, heq⟩ <;>
      rw [heq] at hres <;> simp only [afterState] at hres
    · rw [hu] at hres; cases Option.some.inj hres; exact hinv
    · rw [hu] at hres; cases Option.some.inj hres; exact hinv
    · rw [hu] at hres; cases Option.some.inj hres; exact hinv
    · rw [hu] at hres; cases Option.some.inj hres; exact hinv
    · rcases users_two_updates _ _ _ _ _ _ _ _ _ _ hu hres with
        hcase | ⟨ha, hcase⟩ | ⟨_, hcase⟩ | ⟨ha, _, hcase⟩
      · subst hcase; exact hinv
      · subst hcase; exact noDual_pushUp_pullDown k k' d dd u hinv
      · subst hcase; exact noDual_setKarma k' dd _ u hinv
      · subst hcase
        exact noDual_setKarma k' dd _ _ (noDual_pushUp_pullDown k k' d dd u hinv)
    · rcases users_one_update _ _ _ _ _ _ _ _ hu hres with hcase | ⟨ha, hcase⟩
      · subst hcase; exact hinv
      · subst ha
        have huu : u = u0 := Option.some.inj (hu.symm.trans hu0)
        subst huu
        subst hcase
        exact noDual_pushUp k k' d dd u hdown0 hinv
    · rcases users_two_updates _ _ _ _ _ _ _ _ _ _ hu hres with
        hcase | ⟨ha, hcase⟩ | ⟨_, hcase⟩ | ⟨ha, _, hcase⟩
      · subst hcase; exact hinv
      · subst ha
        have huu : u = u0 := Option.some.inj (hu.symm.trans hu0)
        subst huu
        subst hcase
        exact noDual_pushUp k k' d dd u hdown0 hinv
      · subst hcase; exact noDual_setKarma k' dd _ u hinv
      · subst ha
        have huu : u = u0 := Option.some.inj (hu.symm.trans hu0)
        subst huu
        subst hcase
        exact noDual_setKarma k' dd _ _ (noDual_pushUp k k' d dd u hdown0 hinv)
  case downvote =>
    simp only [applyVote] at hres
    rcases downvoteDocument_cases k st a d with ⟨_, heq⟩ | ⟨_, _, _, heq⟩ |
      ⟨_, _, _, _, _, heq⟩ | ⟨_, _, _, _, _, _, _, heq⟩ |
      ⟨doc0, u0, cr0, hd0, hu0, hdown0, hup0, hcr0, heq⟩ |
      ⟨doc0, u0, hd0, hu0, hdown0, hup0, hcr0, heq⟩ |
      ⟨doc0, u0, cr0, hd0, hu0, hdown0, hup0, hcr0, heq⟩ <;>
      rw [heq] at hres <;> simp only [afterState] at hres
    · rw [hu] at hres; cases Option.some.inj hres; exact hinv
    · rw [hu] at hres; cases Option.some.inj hres; exact hinv
    · rw [hu] at hres; cases Option.some.inj hres; exact hinv
    · rw [hu] at hres; cases Option.some.inj hres; exact hinv
    · rcases users_two_updates _ _ _ _ _ _ _ _ _ _ hu hres with
        hcase | ⟨ha, hcase⟩ | ⟨_, hcase⟩ | ⟨ha, _, hcase⟩
      · subst hcase; exact hinv
      · subst hcase; exact noDual_pushDown_pullUp k k' d dd u hinv
      · subst hcase; exact noDual_setKarma k' dd _ u hinv
      · subst hcase
        exact noDual_setKarma k' dd _ _ (noDual_pushDown_pullUp k k' d dd u hinv)
    · rcases users_one_update _ _ _ _ _ _ _ _ hu hres with hcase | ⟨ha, hcase⟩
      · subst hcase; exact hinv
      · subst ha
        have huu : u = u0 := Option.some.inj (hu.symm.trans hu0)
        subst huu
        subst hcase
        exact noDual_pushDown k k' d dd u hup0 hinv
    · rcases users_two_updates _ _ _ _ _ _ _ _ _ _ hu hres with
        hcase | ⟨ha, hcase⟩ | ⟨_, hcase⟩ | ⟨ha, _, hcase⟩
      · subst hcase; exact hinv
      · subst ha
        have huu : u = u0 := Option.some.inj (hu.symm.trans hu0)
        subst huu
        subst hcase
        exact noDual_pushDown k k' d dd u hup0 hinv
      · subst hcase; exact noDual_setKarma k' dd _ u hinv
      · subst ha
        have huu : u = u0 := Option.some.inj (hu.symm.trans hu0)
        subst huu
        subst hcase
        exact noDual_setKarma k' dd _ _ (noDual_pushDown k k' d dd u hup0 hinv)
  case removeUpvote =>
    simp only [applyVote] at hres
    rcases removeUpvote_cases k st a d with ⟨_, heq⟩ | ⟨_, _, _, heq⟩ |
      ⟨_, _, _, _, _, heq⟩ | ⟨_, _, _, _, _, _, heq⟩ |
      ⟨doc0, u0, cr0, hd0, hu0, hup0, hcr0, heq⟩ <;>
      rw [heq] at hres <;> simp only [afterState] at hres
    · rw [hu] at hres; cases Option.some.inj hres; exact hinv
    · rw [hu] at hres; cases Option.some.inj hres; exact hinv
    · rw [hu] at hres; cases Option.some.inj hres; exact hinv
    · rw [hu] at hres; cases Option.some.inj hres; exact hinv
    · rcases users_two_updates _ _ _ _ _ _ _ _ _ _ hu hres with
        hcase | ⟨_, hcase⟩ | ⟨_, hcase⟩ | ⟨_, _, hcase⟩
      · subst hcase; exact hinv
      · subst hcase; exact noDual_pullUp k k' d dd u hinv
      · subst hcase; exact noDual_setKarma k' dd _ u hinv
      · subst hcase
        exact noDual_setKarma k' dd _ _ (noDual_pullUp k k' d dd u hinv)
  case removeDownvote =>
    simp only [applyVote] at hres
    rcases removeDownvote_cases k st a d with ⟨_, heq⟩ | ⟨_, _, _, heq⟩ |
      ⟨_, _, _, _, _, heq⟩ | ⟨_, _, _, _, _, _, heq⟩ |
      ⟨doc0, u0, cr0, hd0, hu0, hdown0, hcr0, heq⟩ <;>
      rw [heq] at hres <;> simp only [afterState] at hres
    · rw [hu] at hres; cases Option.some.inj hres; exact hinv
    · rw [hu] at hres; cases Option.some.inj hres; exact hinv
    · rw [hu] at hres; cases Option.some.inj hres; exact hinv
    · rw [hu] at hres; cases Option.some.inj hres; exact hinv
    · rcases users_two_updates _ _ _ _ _ _ _ _ _ _ hu hres with
        hcase | ⟨_, hcase⟩ | ⟨_, hcase⟩ | ⟨_, _, hcase⟩
      · subst hcase; exact hinv
      · subst hcase; exact noDual_pullDown k k' d dd u hinv
      · subst hcase; exact noDual_setKarma k' dd _ u hinv
      · subst hcase
        exact noDual_setKarma k' dd _ _ (noDual_pullDown k k' d dd u hinv)

/-- Witness for C8: user 1 (no votes, invariant holds) upvotes post 7;
the resulting record still satisfies the uniqueness invariant. -/
theorem vote_preserves_uniqueness_witness :
    ((stVote (blankUser 0)).users 1 = some (blankUser 0) ∧
     noDual Kind.post 7 (blankUser 0) ∧
     (afterState (applyVote VoteIntent.upvote Kind.post
        (stVote (blankUser 0)) 1 7)).users 1 = some userUp) ∧
    noDual Kind.post 7 userUp :=
  ⟨⟨rfl, by unfold noDual; decide, rfl⟩,
   vote_preserves_uniqueness VoteIntent.upvote Kind.post Kind.post
     (stVote (blankUser 0)) 1 7 1 7 (blankUser 0) userUp rfl
     (by unfold noDual; decide) rfl⟩

theorem upvoteDocument_error_state (k : Kind) (st st' : St) (a d : Id)
    (e : Err) (h : upvoteDocument k st a d = .error (e, st'))
    (hne : e ≠ .nullDeref) : st' = st := by
  rcases upvoteDocument_cases k st a d with ⟨_, heq⟩ | ⟨_, _, _, heq⟩ |
    ⟨_, _, _, _, _, heq⟩ | ⟨_, _, _, _, _, _, _, heq⟩ |
    ⟨_, _, _, _, _, _, _, _, heq⟩ | ⟨_, _, _, _, _, _, _, heq⟩ |
    ⟨_, _, _, _, _, _, _, _, heq⟩ <;> rw [heq] at h <;> simp at h
  · exact h.2.symm
  · exact h.2.symm
  · exact h.2.symm
  · exact h.2.symm
  · exact absurd h.1.symm hne

theorem downvoteDocument_error_state (k : Kind) (st st' : St) (a d : Id)
    (e : Err) (h : downvoteDocument k st a d = .error (e, st'))
    (hne : e ≠ .nullDeref) : st' = st := by
  rcases downvoteDocument_cases k st a d with ⟨_, heq⟩ | ⟨_, _, _, heq⟩ |
    ⟨_, _, _, _, _, heq⟩ | ⟨_, _, _, _, _, _, _, heq⟩ |
    ⟨_, _, _, _, _, _, _, _, heq⟩ | ⟨_, _, _, _, _, _, _, heq⟩ |
    ⟨_, _, _, _, _, _, _, _, heq⟩ <;> rw [heq] at h <;> simp at h
  · exact h.2.symm
  · exact h.2.symm
  · exact h.2.symm
  · exact h.2.symm
  · exact absurd h.1.symm hne

theorem removeUpvote_error_state (k : Kind) (st st' : St) (a d : Id)
    (e : Err) (h : removeUpvote k st a d = .error (e, st')) : st' = st := by
  rcases removeUpvote_cases k st a d with ⟨_, heq⟩ | ⟨_, _, _, heq⟩ |
    ⟨_, _, _, _, _, heq⟩ | ⟨_, _, _, _, _, _, heq⟩ |
    ⟨_, _, _, _, _, _, _, heq⟩ <;> rw [heq] at h <;> simp at h
  · exact h.2.symm
  · exact h.2.symm
  · exact h.2.symm
  · exact h.2.symm

theorem removeDownvote_error_state (k : Kind) (st st' : St) (a d : Id)
    (e : Err) (h : removeDownvote k st a d = .error (e, st')) : st' = st := by
  rcases removeDownvote_cases k st a d with ⟨_, heq⟩ | ⟨_, _, _, heq⟩ |
    ⟨_, _, _, _, _, heq⟩ | ⟨_, _, _, _, _, _, heq⟩ |
    ⟨_, _, _, _, _, _, _, heq⟩ <;> rw [heq] at h <;> simp at h
  · exact h.2.symm
  · exact h.2.symm
  · exact h.2.symm
  · exact h.2.symm

/-- Claim C9: whenever a vote operation ends in one of the operational
errors `NotFound`, `AlreadyVoted` or `NotVoted`, the error was raised
before any save, so the store carried with the error is exactly the
pre-call store: user, document and creator records are all unchanged. -/
theorem operational_error_no_mutation (intent : VoteIntent) (k : Kind)
    (st st' : St) (a d : Id) (e : Err)
    (h : applyVote intent k st a d = .error (e, st'))
    (he : e = .notFound ∨ e = .alreadyVoted ∨ e = .notVoted) :
    st' = st := by
  have hne : e ≠ .nullDeref := by
    rcases he with rfl | rfl | rfl <;> simp
  cases intent
  case upvote => exact upvoteDocument_error_state k st st' a d e h hne
  case downvote => exact downvoteDocument_error_state k st st' a d e h hne
  case removeUpvote => exact removeUpvote_error_state k st st' a d e h
  case removeDownvote => exact removeDownvote_error_state k st st' a d e h

/-- Witness for C9: user 1 has not voted on post 7, so remove-upvote
fails `NotVoted` and the carried store equals the pre-call store. -/
theorem operational_error_no_mutation_witness :
    (applyVote VoteIntent.removeUpvote Kind.post (stVote (blankUser 0)) 1 7 =
       .error (.notVoted, stVote (blankUser 0)) ∧
     (Err.notVoted = Err.notFound ∨ Err.notVoted = Err.alreadyVoted ∨
      Err.notVoted = Err.notVoted)) ∧
    stVote (blankUser 0) = stVote (blankUser 0) :=
  ⟨⟨rfl, Or.inr (Or.inr rfl)⟩,
   operational_error_no_mutation VoteIntent.removeUpvote Kind.post
     (stVote (blankUser 0)) (stVote (blankUser 0)) 1 7 Err.notVoted rfl
     (Or.inr (Or.inr rfl))⟩

/-- Claim C10: a successful vote operation by an actor who is not the
document's creator leaves the actor's own karma unchanged, keeps the
document's creator and community references, leaves the opposite-polarity
counter unchanged except in the switch transitions, and modifies no
entity other than the acting user, the target document, and the
document's creator (communities are untouched entirely). -/
theorem vote_frame_condition (intent : VoteIntent) (k : Kind) (st st' : St)
    (a d : Id) (doc : DocRec) (u : UserRec)
    (hd : st.docs d = some doc) (hu : st.users a = some u)
    (hne : a ≠ doc.creator)
    (hok : applyVote intent k st a d = .ok st') :
    (∃ u', st'.users a = some u' ∧ u'.karma = u.karma) ∧
    (∃ doc', st'.docs d = some doc' ∧ doc'.creator = doc.creator ∧
      doc'.community = doc.community ∧
      oppositeCounterOk intent k u d doc doc') ∧
    (∀ i, i ≠ a → i ≠ doc.creator → st'.users i = st.users i) ∧
    (∀ j, j ≠ d → st'.docs j = st.docs j) ∧
    st'.communities = st.communities := by
  cases intent
  case upvote =>
    simp only [applyVote] at hok
    rcases upvoteDocument_cases k st a d with ⟨_, heq⟩ | ⟨_, _, _, heq⟩ |
      ⟨_, _, _, _, _, heq⟩ | ⟨_, _, _, _, _, _, _, heq⟩ |
      ⟨doc0, u0, cr0, hd0, hu0, hup0, hdown0, hcr0, heq⟩ |
      ⟨_, _, _, _, _, _, _, heq⟩ |
      ⟨doc0, u0, cr0, hd0, hu0, hup0, hdown0, hcr0, heq⟩ <;>
      rw [heq] at hok
    · exact absurd hok (by simp)
    · exact absurd hok (by simp)
    · exact absurd hok (by simp)
    · exact absurd hok (by simp)
    · have hdd : doc0 = doc := Option.some.inj (hd0.symm.trans hd)
      subst hdd
      have huu : u0 = u := Option.some.inj (hu0.symm.trans hu)
      subst huu
      have hst := Except.ok.inj hok
      subst hst
      refine ⟨⟨pushUp k d (pullDown k d u0), ?_, by simp⟩,
        ⟨{ doc0 with downvotes := doc0.downvotes - 1, upvotes := doc0.upvotes + 1 },
          by simp, rfl, rfl, ?_⟩, ?_, ?_, rfl⟩
      · simp [if_neg hne, hu]
      · intro hcontra
        rw [hcontra] at hdown0
        cases hdown0
      · intro i hia hic
        simp [updateUser_users, if_neg hic, if_neg hia]
      · intro j hj
        simp [if_neg hj]
    · exact absurd hok (by simp)
    · have hdd : doc0 = doc := Option.some.inj (hd0.symm.trans hd)
      subst hdd
      have huu : u0 = u := Option.some.inj (hu0.symm.trans hu)
      subst huu
      have hst := Except.ok.inj hok
      subst hst
      refine ⟨⟨pushUp k d u0, ?_, by simp⟩,
        ⟨{ doc0 with upvotes := doc0.upvotes + 1 },
          by simp, rfl, rfl, ?_⟩, ?_, ?_, rfl⟩
      · simp [if_neg hne, hu]
      · intro _; rfl
      · intro i hia hic
        simp [updateUser_users, if_neg hic, if_neg hia]
      · intro j hj
        simp [if_neg hj]
  case downvote =>
    simp only [applyVote] at hok
    rcases downvoteDocument_cases k st a d with ⟨_, heq⟩ | ⟨_, _, _, heq⟩ |
      ⟨_, _, _, _, _, heq⟩ | ⟨_, _, _, _, _, _, _, heq⟩ |
      ⟨doc0, u0, cr0, hd0, hu0, hdown0, hup0, hcr0, heq⟩ |
      ⟨_, _, _, _, _, _, _, heq⟩ |
      ⟨doc0, u0, cr0, hd0, hu0, hdown0, hup0, hcr0, heq⟩ <;>
      rw [heq] at hok
    · exact absurd hok (by simp)
    · exact absurd hok (by simp)
    · exact absurd hok (by simp)
    · exact absurd hok (by simp)
    · have hdd : doc0 = doc := Option.some.inj (hd0.symm.trans hd)
      subst hdd
      have huu : u0 = u := Option.some.inj (hu0.symm.trans hu)
      subst huu
      have hst := Except.ok.inj hok
      subst hst
      refine ⟨⟨pushDown k d (pullUp k d u0), ?_, by simp⟩,
        ⟨{ doc0 with upvotes := doc0.upvotes - 1, downvotes := doc0.downvotes + 1 },
          by simp, rfl, rfl, ?_⟩, ?_, ?_, rfl⟩
      · simp [if_neg hne, hu]
      · intro hcontra
        rw [hcontra] at hup0
        cases hup0
      · intro i hia hic
        simp [updateUser_users, if_neg hic, if_neg hia]
      · intro j hj
        simp [if_neg hj]
    · exact absurd hok (by simp)
    · have hdd : doc0 = doc := Option.some.inj (hd0.symm.trans hd)
      subst hdd
      have huu : u0 = u := Option.some.inj (hu0.symm.trans hu)
      subst huu
      have hst := Except.ok.inj hok
      subst hst
      refine ⟨⟨pushDown k d u0, ?_, by simp⟩,
        ⟨{ doc0 with downvotes := doc0.downvotes + 1 },
          by simp, rfl, rfl, ?_⟩, ?_, ?_, rfl⟩
      · simp [if_neg hne, hu]
      · intro _; rfl
      · intro i hia hic
        simp [updateUser_users, if_neg hic, if_neg hia]
      · intro j hj
        simp [if_neg hj]
  case removeUpvote =>
    simp only [applyVote] at hok
    rcases removeUpvote_cases k st a d with ⟨_, heq⟩ | ⟨_, _, _, heq⟩ |
      ⟨_, _, _, _, _, heq⟩ | ⟨_, _, _, _, _, _, heq⟩ |
      ⟨doc0, u0, cr0, hd0, hu0, hup0, hcr0, heq⟩ <;>
      rw [heq] at hok
    · exact absurd hok (by simp)
    · exact absurd hok (by simp)
    · exact absurd hok (by simp)
    · exact absurd hok (by simp)
    · have hdd : doc0 = doc := Option.some.inj (hd0.symm.trans hd)
      subst hdd
      have huu : u0 = u := Option.some.inj (hu0.symm.trans hu)
      subst huu
      have hst := Except.ok.inj hok
      subst hst
      refine ⟨⟨pullUp k d u0, ?_, by simp⟩,
        ⟨{ doc0 with upvotes := doc0.upvotes - 1 },
          by simp, rfl, rfl, rfl⟩, ?_, ?_, rfl⟩
      · simp [if_neg hne, hu]
      · intro i hia hic
        simp [updateUser_users, if_neg hic, if_neg hia]
      · intro j hj
        simp [if_neg hj]
  case removeDownvote =>
    simp only [applyVote] at hok
    rcases removeDownvote_cases k st a d with ⟨_, heq⟩ | ⟨_, _, _, heq⟩ |
      ⟨_, _, _, _, _, heq⟩ | ⟨_, _, _, _, _, _, heq⟩ |
      ⟨doc0, u0, cr0, hd0, hu0, hdown0, hcr0, heq⟩ <;>
      rw [heq] at hok
    · exact absurd hok (by simp)
    · exact absurd hok (by simp)
    · exact absurd hok (by simp)
    · exact absurd hok (by simp)
    · have hdd : doc0 = doc := Option.some.inj (hd0.symm.trans hd)
      subst hdd
      have huu : u0 = u := Option.some.inj (hu0.symm.trans hu)
      subst huu
      have hst := Except.ok.inj hok
      subst hst
      refine ⟨⟨pullDown k d u0, ?_, by simp⟩,
        ⟨{ doc0 with downvotes := doc0.downvotes - 1 },
          by simp, rfl, rfl, rfl⟩, ?_, ?_, rfl⟩
      · simp [if_neg hne, hu]
      · intro i hia hic
        simp [updateUser_users, if_neg hic, if_neg hia]
      · intro j hj
        simp [if_neg hj]

/-- Witness for C10: user 1 (not the creator) upvotes post 7 from the
clean store; the frame conditions hold on the resulting store. -/
theorem vote_frame_condition_witness :
    ((stVote (blankUser 0)).docs 7 = some sampleDoc ∧
     (stVote (blankUser 0)).users 1 = some (blankUser 0) ∧
     (1 : Id) ≠ sampleDoc.creator ∧
     applyVote VoteIntent.upvote Kind.post (stVote (blankUser 0)) 1 7 =
       .ok stUpOnce) ∧
    ((∃ u', stUpOnce.users 1 = some u' ∧ u'.karma = (blankUser 0).karma) ∧
     (∃ doc', stUpOnce.docs 7 = some doc' ∧
       doc'.creator = sampleDoc.creator ∧
       doc'.community = sampleDoc.community ∧
       oppositeCounterOk VoteIntent.upvote Kind.post (blankUser 0) 7
         sampleDoc doc') ∧
     (∀ i, i ≠ 1 → i ≠ sampleDoc.creator →
       stUpOnce.users i = (stVote (blankUser 0)).users i) ∧
     (∀ j, j ≠ 7 → stUpOnce.docs j = (stVote (blankUser 0)).docs j) ∧
     stUpOnce.communities = (stVote (blankUser 0)).communities) :=
  ⟨⟨rfl, rfl, by decide, rfl⟩,
   vote_frame_condition VoteIntent.upvote Kind.post (stVote (blankUser 0))
     stUpOnce 1 7 sampleDoc (blankUser 0) rfl rfl (by decide) rfl⟩

end NodeIt
